import Mathlib

/-!
Verification of the retirement-savings projection engine of this repository,
the function simulate_retirement_savings in app_v1.py (lines 58-119),
modelled over the real numbers.  The engine turns a handful of scalar
parameters into aligned monthly series: a contribution series growing at a
monthly-equivalent rate, an optional family-expense adjustment floored at
zero, the nominal portfolio balance recurrence, and an inflation-deflated
real-value series.  The output rows of the returned DataFrame are modelled
as a list of records carrying the month index, the scaled nominal, real and
contribution values, and the derived year column.
-/

/-- Country selector (app_v1.py line 68), which picks the display divisors
at lines 95-109. -/
inductive Country
  | India
  | US
  | Japan
deriving DecidableEq

/-- The scalar parameters of simulate_retirement_savings (app_v1.py lines
58-68), in the order of the Python signature.  The country argument is kept
separate because it only affects display scaling. -/
structure Params where
  initial_investment : ℝ
  initial_monthly_contribution : ℝ
  annual_return_rate : ℝ
  inflation_rate : ℝ
  years_to_retirement : ℕ
  annual_income_growth_rate : ℝ
  plan_for_family : Bool
  family_growth_year : ℕ
  family_growth_expense : ℝ

/-- Annual-to-monthly compound rate conversion used at app_v1.py lines
70-72: (1 + annual) ** (1/12) - 1. -/
noncomputable def monthly_rate (annual : ℝ) : ℝ :=
  (1 + annual) ^ ((1 : ℝ) / 12) - 1

/-- The monthly_contribution array, app_v1.py lines 77-78 (initialisation)
and 81 (loop body): each month multiplies the previous contribution by one
plus the monthly income growth rate. -/
noncomputable def monthly_contribution (p : Params) : ℕ → ℝ
  | 0 => p.initial_monthly_contribution
  | i + 1 =>
      monthly_contribution p i * (1 + monthly_rate p.annual_income_growth_rate)

/-- The adjusted_contribution local of the loop body, app_v1.py lines
83-86: once plan_for_family holds and the month index has reached
family_growth_year * 12, the family expense is subtracted from the gross
contribution, floored at zero. -/
noncomputable def adjusted_contribution (p : Params) (i : ℕ) : ℝ :=
  if p.plan_for_family ∧ p.family_growth_year * 12 ≤ i then
    max 0 (monthly_contribution p i - p.family_growth_expense)
  else
    monthly_contribution p i

/-- The portfolio_value array, app_v1.py lines 75-76 (initialisation) and
88-91 (loop body): prior balance grown by the monthly return rate plus the
adjusted contribution. -/
noncomputable def portfolio_value (p : Params) : ℕ → ℝ
  | 0 => p.initial_investment
  | i + 1 =>
      portfolio_value p i * (1 + monthly_rate p.annual_return_rate)
        + adjusted_contribution p (i + 1)

/-- The real_value array, app_v1.py line 93: the nominal balance deflated
by the compounded monthly inflation rate. -/
noncomputable def real_value (p : Params) (i : ℕ) : ℝ :=
  portfolio_value p i / (1 + monthly_rate p.inflation_rate) ^ i

/-- Display divisor for balance values, app_v1.py lines 95-109. -/
def value_divisor : Country → ℝ
  | Country.India => 10000000
  | Country.US => 1000000
  | Country.Japan => 1000000

/-- Display divisor for contribution values, app_v1.py lines 95-109. -/
def contribution_divisor : Country → ℝ
  | Country.India => 100000
  | Country.US => 1000
  | Country.Japan => 1000

/-- One row of the output DataFrame built at app_v1.py lines 111-117:
month index, scaled nominal balance, scaled real balance, scaled monthly
contribution, and the derived year column (line 117). -/
structure Record where
  month : ℕ
  nominal : ℝ
  real : ℝ
  contribution : ℝ
  year : ℕ

/-- simulate_retirement_savings, app_v1.py lines 58-119: one record per
month index 0 .. years_to_retirement * 12 (line 74 builds this index
range, line 117 adds the year column as month // 12 + 2024). -/
noncomputable def simulate_retirement_savings (p : Params) (c : Country) :
    List Record :=
  (List.range (p.years_to_retirement * 12 + 1)).map fun i =>
    { month := i
      nominal := portfolio_value p i / value_divisor c
      real := real_value p i / value_divisor c
      contribution := monthly_contribution p i / contribution_divisor c
      year := i / 12 + 2024 }

/-- simulate_retirement_savings called with an arbitrary integer horizon,
which the Python function accepts without any validation: for y < 0 the
index array np.arange(y*12 + 1) of line 74 is empty, so the write
portfolio_value[0] = initial_investment at line 76 raises IndexError,
modelled here as none; for y >= 0 the run is total and returns the full
series.  No branch of the source checks any parameter. -/
noncomputable def simulate_retirement_savings_int (p : Params) (y : ℤ)
    (c : Country) : Option (List Record) :=
  if y < 0 then none
  else
    some (simulate_retirement_savings { p with years_to_retirement := y.toNat } c)

/-- Modelled from the spec: the PeriodicRaise contribution growth policy
(spec sections 3 and 4.1), which is present only in repository variants not
included under src.  The contribution starts at init, is held constant
within each interval of interval_years * 12 months, and is multiplied by
(1 + raise_fraction) at the first month of every subsequent interval, each
raise compounding on the already-raised amount. -/
noncomputable def periodic_raise_contribution (init f : ℝ) (interval_years : ℕ) :
    ℕ → ℝ
  | 0 => init
  | i + 1 =>
      if (i + 1) % (interval_years * 12) = 0 then
        periodic_raise_contribution init f interval_years i * (1 + f)
      else
        periodic_raise_contribution init f interval_years i

theorem one_add_monthly_rate (a : ℝ) :
    1 + monthly_rate a = (1 + a) ^ ((1 : ℝ) / 12) := by
  unfold monthly_rate
  ring

theorem monthly_rate_zero : monthly_rate 0 = 0 := by
  simp [monthly_rate, Real.one_rpow]

theorem one_add_monthly_rate_nonneg {a : ℝ} (h : -1 ≤ a) :
    0 ≤ 1 + monthly_rate a := by
  rw [one_add_monthly_rate]
  exact Real.rpow_nonneg (by linarith) _

theorem one_le_one_add_monthly_rate {a : ℝ} (h : 0 ≤ a) :
    1 ≤ 1 + monthly_rate a := by
  rw [one_add_monthly_rate]
  calc (1 : ℝ) = 1 ^ ((1 : ℝ) / 12) := (Real.one_rpow _).symm
    _ ≤ (1 + a) ^ ((1 : ℝ) / 12) :=
        Real.rpow_le_rpow (by norm_num) (by linarith) (by norm_num)

theorem one_lt_one_add_monthly_rate {a : ℝ} (h : 0 < a) :
    1 < 1 + monthly_rate a := by
  rw [one_add_monthly_rate]
  calc (1 : ℝ) = 1 ^ ((1 : ℝ) / 12) := (Real.one_rpow _).symm
    _ < (1 + a) ^ ((1 : ℝ) / 12) :=
        Real.rpow_lt_rpow (by norm_num) (by linarith) (by norm_num)

theorem monthly_contribution_nonneg (p : Params)
    (hc : 0 ≤ p.initial_monthly_contribution)
    (hg : -1 ≤ p.annual_income_growth_rate) :
    ∀ i, 0 ≤ monthly_contribution p i
  | 0 => hc
  | i + 1 =>
      mul_nonneg (monthly_contribution_nonneg p hc hg i)
        (one_add_monthly_rate_nonneg hg)

theorem adjusted_contribution_nonneg (p : Params)
    (hc : 0 ≤ p.initial_monthly_contribution)
    (hg : -1 ≤ p.annual_income_growth_rate) (i : ℕ) :
    0 ≤ adjusted_contribution p i := by
  unfold adjusted_contribution
  split
  · exact le_max_left 0 _
  · exact monthly_contribution_nonneg p hc hg i

theorem portfolio_value_nonneg (p : Params)
    (hb : 0 ≤ p.initial_investment)
    (hc : 0 ≤ p.initial_monthly_contribution)
    (hg : -1 ≤ p.annual_income_growth_rate)
    (hr : -1 ≤ p.annual_return_rate) :
    ∀ i, 0 ≤ portfolio_value p i
  | 0 => hb
  | i + 1 =>
      add_nonneg
        (mul_nonneg (portfolio_value_nonneg p hb hc hg hr i)
          (one_add_monthly_rate_nonneg hr))
        (adjusted_contribution_nonneg p hc hg (i + 1))

theorem monthly_contribution_eq_zero (p : Params)
    (hc : p.initial_monthly_contribution = 0) :
    ∀ i, monthly_contribution p i = 0
  | 0 => hc
  | i + 1 => by
      simp only [monthly_contribution]
      rw [monthly_contribution_eq_zero p hc i, zero_mul]

/-- Claim C1: the nominal balance series satisfies balance 0 = initial
balance and balance (i+1) = balance i * (1 + monthly return rate) +
adjusted contribution (i+1), with the monthly return rate equal to
(1 + annual return rate)^(1/12) - 1; this holds for every parameter set,
with no clamping and no sign assumption on the return rate. -/
theorem C1_balance_recurrence (p : Params) :
    portfolio_value p 0 = p.initial_investment ∧
    (∀ i : ℕ, portfolio_value p (i + 1) =
      portfolio_value p i * (1 + monthly_rate p.annual_return_rate)
        + adjusted_contribution p (i + 1)) ∧
    monthly_rate p.annual_return_rate
      = (1 + p.annual_return_rate) ^ ((1 : ℝ) / 12) - 1 :=
  ⟨rfl, fun _ => rfl, rfl⟩

/-- Claim C7: for every parameter set and country, the output series has
exactly years_to_retirement * 12 + 1 records, whose month fields are
0 .. N in order, and every record's year field equals month / 12 + 2024. -/
theorem C7_series_shape (p : Params) (c : Country) :
    (simulate_retirement_savings p c).length
      = p.years_to_retirement * 12 + 1 ∧
    (simulate_retirement_savings p c).map Record.month
      = List.range (p.years_to_retirement * 12 + 1) ∧
    (simulate_retirement_savings p c).map Record.year
      = (List.range (p.years_to_retirement * 12 + 1)).map
          (fun i => i / 12 + 2024) := by
  refine ⟨?_, ?_, ?_⟩ <;>
    simp [simulate_retirement_savings, List.map_map, Function.comp_def]

/-- Claim C3: for each month i >= 1, the applied contribution equals the
gross contribution unchanged when no family adjustment is active (flag off
or i before family_growth_year * 12), and otherwise equals
max 0 (gross - monthly expense); consequently, for valid parameters
(nonnegative initial contribution, growth rate at least -1) the applied
contribution is nonnegative at every month. -/
theorem C3_family_adjustment (p : Params) (i : ℕ)
    (hc : 0 ≤ p.initial_monthly_contribution)
    (hg : -1 ≤ p.annual_income_growth_rate) (hi : 1 ≤ i) :
    (p.plan_for_family = false ∨ i < p.family_growth_year * 12 →
      adjusted_contribution p i = monthly_contribution p i) ∧
    (p.plan_for_family = true → p.family_growth_year * 12 ≤ i →
      adjusted_contribution p i
        = max 0 (monthly_contribution p i - p.family_growth_expense)) ∧
    0 ≤ adjusted_contribution p i := by
  refine ⟨?_, ?_, adjusted_contribution_nonneg p hc hg i⟩
  · intro h
    unfold adjusted_contribution
    rw [if_neg]
    rintro ⟨hpf, hle⟩
    rcases h with h | h
    · rw [h] at hpf
      exact Bool.false_ne_true hpf
    · omega
  · intro hp hle
    unfold adjusted_contribution
    rw [if_pos ⟨hp, hle⟩]

theorem C3_witness :
    0 ≤ adjusted_contribution
        (Params.mk 1000000 100000 0.08 0.04 30 0.03 true 5 50000) 60 :=
  (C3_family_adjustment (Params.mk 1000000 100000 0.08 0.04 30 0.03 true 5 50000)
    60 (by norm_num) (by norm_num) (by norm_num)).2.2

/-- Claim C6: for valid parameters with nonnegative inflation rate,
initial balance, initial contribution and return rate (and income growth
rate at least -1), the real value at month i equals the nominal balance
divided by (1 + monthly inflation rate)^i, and is at most the nominal
balance. -/
theorem C6_real_value_le (p : Params)
    (hinfl : 0 ≤ p.inflation_rate) (hb : 0 ≤ p.initial_investment)
    (hc : 0 ≤ p.initial_monthly_contribution)
    (hr : 0 ≤ p.annual_return_rate)
    (hg : -1 ≤ p.annual_income_growth_rate) (i : ℕ) :
    real_value p i
      = portfolio_value p i / (1 + monthly_rate p.inflation_rate) ^ i ∧
    real_value p i ≤ portfolio_value p i := by
  refine ⟨rfl, ?_⟩
  have hpv : 0 ≤ portfolio_value p i :=
    portfolio_value_nonneg p hb hc hg (by linarith) i
  have hpow : 1 ≤ (1 + monthly_rate p.inflation_rate) ^ i :=
    one_le_pow₀ (one_le_one_add_monthly_rate hinfl)
  exact div_le_self hpv hpow

theorem C6_witness :
    real_value (Params.mk 1 1 0 0 1 0 false 5 0) 0
      = portfolio_value (Params.mk 1 1 0 0 1 0 false 5 0) 0
        / (1 + monthly_rate (Params.mk 1 1 0 0 1 0 false 5 0).inflation_rate) ^ 0 ∧
    real_value (Params.mk 1 1 0 0 1 0 false 5 0) 0
      ≤ portfolio_value (Params.mk 1 1 0 0 1 0 false 5 0) 0 :=
  C6_real_value_le (Params.mk 1 1 0 0 1 0 false 5 0)
    (by norm_num) (by norm_num) (by norm_num) (by norm_num) (by norm_num) 0

/-- Claim C9: with zero annual return rate and zero initial contribution,
the nominal balance equals the initial balance at every month, for any
income growth rate and any family adjustment configuration with a
nonnegative monthly expense. -/
theorem C9_zero_return_constant_balance (p : Params)
    (hr : p.annual_return_rate = 0)
    (hc : p.initial_monthly_contribution = 0)
    (he : 0 ≤ p.family_growth_expense) :
    ∀ i, portfolio_value p i = p.initial_investment
  | 0 => rfl
  | i + 1 => by
      have hadj : adjusted_contribution p (i + 1) = 0 := by
        unfold adjusted_contribution
        rw [monthly_contribution_eq_zero p hc]
        split
        · exact max_eq_left (by linarith)
        · rfl
      simp only [portfolio_value]
      rw [hadj, hr, monthly_rate_zero,
        C9_zero_return_constant_balance p hr hc he i]
      ring

theorem C9_witness :
    portfolio_value (Params.mk 42 0 0 0.04 2 0.03 true 0 500) 7 = 42 :=
  C9_zero_return_constant_balance (Params.mk 42 0 0 0.04 2 0.03 true 0 500)
    rfl rfl (by norm_num) 7

/-- Claim C4 (amended): the contribution series satisfies contribution 0 =
initial contribution and contribution (i+1) = contribution i *
(1 + monthly growth rate), so it depends only on the month index and the
parameters; it is strictly increasing when the annual growth rate is
positive and the initial contribution is positive, and it is constant at
the initial contribution when the annual growth rate is zero. -/
theorem C4_continuous_growth (p : Params) :
    (∀ i, monthly_contribution p (i + 1)
        = monthly_contribution p i
            * (1 + monthly_rate p.annual_income_growth_rate)) ∧
    (∀ i, monthly_contribution p i
        = p.initial_monthly_contribution
            * (1 + monthly_rate p.annual_income_growth_rate) ^ i) ∧
    (0 < p.annual_income_growth_rate → 0 < p.initial_monthly_contribution →
        StrictMono (monthly_contribution p)) ∧
    (p.annual_income_growth_rate = 0 →
        ∀ i, monthly_contribution p i = p.initial_monthly_contribution) := by
  have hclosed : ∀ i, monthly_contribution p i
      = p.initial_monthly_contribution
          * (1 + monthly_rate p.annual_income_growth_rate) ^ i := by
    intro i
    induction i with
    | zero => simp [monthly_contribution]
    | succ n ih =>
        simp only [monthly_contribution, ih, pow_succ]
        ring
  refine ⟨fun _ => rfl, hclosed, ?_, ?_⟩
  · intro hg hc
    have h1 : 1 < 1 + monthly_rate p.annual_income_growth_rate :=
      one_lt_one_add_monthly_rate hg
    have hpos : ∀ i, 0 < monthly_contribution p i := by
      intro i
      induction i with
      | zero => exact hc
      | succ n ih => exact mul_pos ih (by linarith)
    refine strictMono_nat_of_lt_succ fun n => ?_
    calc monthly_contribution p n
        = monthly_contribution p n * 1 := (mul_one _).symm
      _ < monthly_contribution p n
            * (1 + monthly_rate p.annual_income_growth_rate) :=
          mul_lt_mul_of_pos_left h1 (hpos n)
      _ = monthly_contribution p (n + 1) := rfl
  · intro hg i
    rw [hclosed i, hg, monthly_rate_zero]
    norm_num

theorem C4_counterexample :
    0 < (Params.mk 0 0 0 0 1 1 false 5 0).annual_income_growth_rate ∧
    ¬ monthly_contribution (Params.mk 0 0 0 0 1 1 false 5 0) 0
        < monthly_contribution (Params.mk 0 0 0 0 1 1 false 5 0) 1 := by
  constructor
  · norm_num
  · have h1 : monthly_contribution (Params.mk 0 0 0 0 1 1 false 5 0) 1 = 0 := by
      simp [monthly_contribution]
    have h0 : monthly_contribution (Params.mk 0 0 0 0 1 1 false 5 0) 0 = 0 := rfl
    rw [h0, h1]
    exact lt_irrefl 0

theorem C4_witness :
    monthly_contribution (Params.mk 0 1 0 0 1 1 false 5 0) 0
      < monthly_contribution (Params.mk 0 1 0 0 1 1 false 5 0) 1 :=
  (C4_continuous_growth (Params.mk 0 1 0 0 1 1 false 5 0)).2.2.1
    (by norm_num) (by norm_num) (by norm_num : (0 : ℕ) < 1)

theorem periodic_raise_closed_form (init f : ℝ) {k : ℕ} (hk : 0 < k) :
    ∀ i, periodic_raise_contribution init f k i
      = init * (1 + f) ^ (i / (k * 12)) := by
  intro i
  induction i with
  | zero => simp [periodic_raise_contribution]
  | succ n ih =>
      by_cases h : (n + 1) % (k * 12) = 0
      · have hdvd : k * 12 ∣ n + 1 := Nat.dvd_of_mod_eq_zero h
        rw [show periodic_raise_contribution init f k (n + 1)
            = periodic_raise_contribution init f k n * (1 + f) by
          simp only [periodic_raise_contribution, if_pos h]]
        rw [ih, Nat.succ_div_of_dvd hdvd, pow_succ]
        ring
      · have hndvd : ¬ k * 12 ∣ n + 1 := fun hd => h (Nat.mod_eq_zero_of_dvd hd)
        rw [show periodic_raise_contribution init f k (n + 1)
            = periodic_raise_contribution init f k n by
          simp only [periodic_raise_contribution, if_neg h]]
        rw [ih, Nat.succ_div_of_not_dvd hndvd]

/-- Claim C5: under the PeriodicRaise policy (modelled from the spec, the
variant being absent from src), for a positive interval the contribution at
month i equals the initial contribution raised i / (interval_years * 12)
times by the factor (1 + raise fraction), so it is constant within each
interval and raises compound; in particular with a one-year interval and a
raise fraction of 0.05, month 12 carries initial * 1.05 and month 24
carries initial * 1.05 ^ 2. -/
theorem C5_periodic_raise (init f : ℝ) (k : ℕ) (hk : 0 < k) :
    (∀ i, periodic_raise_contribution init f k i
        = init * (1 + f) ^ (i / (k * 12))) ∧
    periodic_raise_contribution init 0.05 1 12 = init * 1.05 ∧
    periodic_raise_contribution init 0.05 1 24 = init * 1.05 ^ 2 := by
  refine ⟨periodic_raise_closed_form init f hk, ?_, ?_⟩
  · rw [periodic_raise_closed_form init (0.05 : ℝ) Nat.one_pos 12]
    norm_num
  · rw [periodic_raise_closed_form init (0.05 : ℝ) Nat.one_pos 24]
    norm_num

theorem C5_witness :
    periodic_raise_contribution 1 0.05 1 12 = 1 * 1.05 :=
  (C5_periodic_raise 1 0.05 1 (by norm_num)).2.1

/-- Claim C2 (amended): the engine performs no parameter validation.  A
negative horizon makes the run fail with an IndexError on the empty index
array rather than a descriptive validation error, a zero horizon is
accepted and yields a single-record series, and for every nonnegative
horizon the run is total and returns the complete series of
horizon * 12 + 1 records. -/
theorem C2_no_validation (p : Params) (y : ℤ) (c : Country) :
    (y < 0 → simulate_retirement_savings_int p y c = none) ∧
    (0 ≤ y →
      (simulate_retirement_savings_int p y c).map List.length
        = some (y.toNat * 12 + 1)) := by
  constructor
  · intro h
    unfold simulate_retirement_savings_int
    rw [if_pos h]
  · intro h
    unfold simulate_retirement_savings_int
    rw [if_neg (not_lt.mpr h)]
    simp [simulate_retirement_savings]

theorem C2_counterexample :
    (simulate_retirement_savings_int (Params.mk 0 0 0 0 5 0 false 5 0) 0
        Country.India).map List.length = some 1 := by
  unfold simulate_retirement_savings_int
  rw [if_neg (by norm_num : ¬ (0 : ℤ) < 0)]
  simp [simulate_retirement_savings]

theorem C2_witness :
    simulate_retirement_savings_int (Params.mk 1 1 0 0 3 0 false 5 0) (-1)
        Country.US = none ∧
    (simulate_retirement_savings_int (Params.mk 1 1 0 0 3 0 false 5 0) 2
        Country.US).map List.length = some 25 :=
  ⟨(C2_no_validation (Params.mk 1 1 0 0 3 0 false 5 0) (-1) Country.US).1
      (by norm_num),
   (C2_no_validation (Params.mk 1 1 0 0 3 0 false 5 0) 2 Country.US).2
      (by norm_num)⟩

theorem monthly_contribution_family_invariant (p : Params) (b : Bool)
    (y : ℕ) (e : ℝ) :
    ∀ i, monthly_contribution
        { p with plan_for_family := b, family_growth_year := y,
                 family_growth_expense := e } i
      = monthly_contribution p i
  | 0 => rfl
  | i + 1 => by
      simp only [monthly_contribution,
        monthly_contribution_family_invariant p b y e i]

/-- Claim C8: the contribution column of the output records is the gross
contribution (scaled for display), untouched by the family adjustment:
changing the family parameters in any way leaves the recorded contribution
series identical, and that series is exactly the gross contribution series
divided by the display divisor. -/
theorem C8_contribution_is_gross (p : Params) (c : Country) (b : Bool)
    (y : ℕ) (e : ℝ) :
    (simulate_retirement_savings
        { p with plan_for_family := b, family_growth_year := y,
                 family_growth_expense := e } c).map Record.contribution
      = (simulate_retirement_savings p c).map Record.contribution ∧
    (simulate_retirement_savings p c).map Record.contribution
      = (List.range (p.years_to_retirement * 12 + 1)).map
          (fun i => monthly_contribution p i / contribution_divisor c) := by
  have h2 : (simulate_retirement_savings p c).map Record.contribution
      = (List.range (p.years_to_retirement * 12 + 1)).map
          (fun i => monthly_contribution p i / contribution_divisor c) := by
    simp [simulate_retirement_savings, List.map_map, Function.comp_def]
  refine ⟨?_, h2⟩
  have h1 : (simulate_retirement_savings
      { p with plan_for_family := b, family_growth_year := y,
               family_growth_expense := e } c).map Record.contribution
      = (List.range (p.years_to_retirement * 12 + 1)).map
          (fun i => monthly_contribution
              { p with plan_for_family := b, family_growth_year := y,
                       family_growth_expense := e } i
            / contribution_divisor c) := by
    simp [simulate_retirement_savings, List.map_map, Function.comp_def]
  rw [h1, h2]
  refine List.map_congr_left fun i _ => ?_
  rw [monthly_contribution_family_invariant p b y e i]

theorem adjusted_eq_gross_of_not_plan (p : Params)
    (hp : p.plan_for_family = false) (i : ℕ) :
    adjusted_contribution p i = monthly_contribution p i := by
  unfold adjusted_contribution
  rw [if_neg]
  rintro ⟨hpf, -⟩
  rw [hp] at hpf
  exact Bool.false_ne_true hpf

/-- Claim C10: the family milestone is interpreted in years: with
plan_for_family set, the expense subtraction applies exactly to the months
with index at least family_growth_year * 12 and every earlier month uses
the gross contribution unchanged; with plan_for_family unset, the whole
output is independent of family_growth_year and family_growth_expense. -/
theorem C10_milestone_in_years (p : Params) (c : Country) :
    (p.plan_for_family = true →
      ∀ i, (p.family_growth_year * 12 ≤ i →
              adjusted_contribution p i
                = max 0 (monthly_contribution p i - p.family_growth_expense)) ∧
           (i < p.family_growth_year * 12 →
              adjusted_contribution p i = monthly_contribution p i)) ∧
    (p.plan_for_family = false →
      ∀ (y : ℕ) (e : ℝ), simulate_retirement_savings
          { p with family_growth_year := y, family_growth_expense := e } c
        = simulate_retirement_savings p c) := by
  constructor
  · intro hp i
    constructor
    · intro hle
      unfold adjusted_contribution
      rw [if_pos ⟨hp, hle⟩]
    · intro hlt
      unfold adjusted_contribution
      rw [if_neg]
      rintro ⟨-, hle⟩
      omega
  · intro hp y e
    have hmc : ∀ i, monthly_contribution
        { p with plan_for_family := p.plan_for_family, family_growth_year := y,
                 family_growth_expense := e } i
        = monthly_contribution p i :=
      monthly_contribution_family_invariant p p.plan_for_family y e
    have hadj : ∀ i, adjusted_contribution
        { p with family_growth_year := y, family_growth_expense := e } i
        = adjusted_contribution p i := by
      intro i
      rw [adjusted_eq_gross_of_not_plan
          { p with family_growth_year := y, family_growth_expense := e } hp,
        adjusted_eq_gross_of_not_plan p hp]
      exact hmc i
    have hpv : ∀ i, portfolio_value
        { p with family_growth_year := y, family_growth_expense := e } i
        = portfolio_value p i := by
      intro i
      induction i with
      | zero => rfl
      | succ n ih => simp only [portfolio_value, ih, hadj]
    have hrv : ∀ i, real_value
        { p with family_growth_year := y, family_growth_expense := e } i
        = real_value p i := by
      intro i
      unfold real_value
      rw [hpv]
    unfold simulate_retirement_savings
    refine List.map_congr_left fun i _ => ?_
    rw [hpv i, hrv i, hmc i]

theorem C10_witness :
    adjusted_contribution (Params.mk 0 1 0 0 10 0 true 5 2) 60
      = max 0 (monthly_contribution (Params.mk 0 1 0 0 10 0 true 5 2) 60 - 2) :=
  ((C10_milestone_in_years (Params.mk 0 1 0 0 10 0 true 5 2) Country.India).1
    rfl 60).1 (by norm_num)
